import Mathlib

/-!
Shallow embedding of the recommendation and wrapped-statistics engine of the
audio-collection-manager-api repository.

JS numbers are modelled as `ℚ` (the code only performs exact small-magnitude
arithmetic on them), play counts and millisecond timestamps as `Int`, strings
as `String`/`List Char`.  Mongo queries are modelled as pure list operations
over an explicit catalog / user population, `Math.random()` and Mongo
`$sample` as explicit function parameters, and the LRU caches are elided:
every definition models the cache-miss path, which is the path that computes
(and populates) every cached value.
-/

namespace AudioApi

/-! ## JavaScript semantics helpers -/

/-- Models JS `Math.floor` on an exact rational. -/
def jsFloor (q : ℚ) : Int := ⌊q⌋

/-- Models JS `Math.ceil` on an exact rational. -/
def jsCeil (q : ℚ) : Int := ⌈q⌉

/-- Models JS `Math.round` (round half toward positive infinity). -/
def jsRound (q : ℚ) : Int := ⌊q + 1/2⌋

/-- Models `Math.round(q * 10) / 10`, the one-decimal rounding used by the
wrapped statistics. -/
def jsRound1 (q : ℚ) : ℚ := (jsRound (q * 10) : ℚ) / 10

/-- Models JS `Array.prototype.slice(0, e)`: a negative end index counts from
the end of the array (`max(length + e, 0)`), a nonnegative one is clamped to
the length. -/
def jsSlice0 {α : Type} (l : List α) (e : Int) : List α :=
  if e < 0 then l.take (((l.length : Int) + e).toNat) else l.take e.toNat

/-- Stable insertion used by `jsSortBy`: `le x y` means the comparator of the
source puts `x` no later than `y` (comparator value `≤ 0`). -/
def insertOrdered {α : Type} (le : α → α → Bool) (x : α) : List α → List α
  | [] => [x]
  | y :: ys => if le x y then x :: y :: ys else y :: insertOrdered le x ys

/-- Models JS `Array.prototype.sort` with a consistent comparator (stable, as
required by the ECMAScript specification). -/
def jsSortBy {α : Type} (le : α → α → Bool) (l : List α) : List α :=
  l.foldr (insertOrdered le) []

/-- The whitespace class stripped by JS `String.prototype.trim` (restricted to
the ASCII part, which is all the catalog data uses). -/
def isJsSpace (c : Char) : Bool :=
  c = ' ' || c = '\t' || c = '\n' || c = '\r' || c = '\x0b' || c = '\x0c'

/-- Models JS `trim` on a character list: drop whitespace from both ends. -/
def trimChars (l : List Char) : List Char :=
  ((l.dropWhile isJsSpace).reverse.dropWhile isJsSpace).reverse

/-- Models JS `String.prototype.trim`. -/
def strTrim (s : String) : String := String.mk (trimChars s.toList)

/-- Models JS `String.prototype.toLowerCase` (ASCII range, which is all the
dedup keys of the source need). -/
def jsToLower (s : String) : String := String.mk (s.toList.map Char.toLower)

/-- Does `pat` occur at the head of `l`? (JS `String.prototype.startsWith`.) -/
def seqLeads : List Char → List Char → Bool
  | [], _ => true
  | _ :: _, [] => false
  | a :: as, b :: bs => a = b && seqLeads as bs

/-- Models JS `String.prototype.startsWith`. -/
def strStarts (pat s : String) : Bool := seqLeads pat.toList s.toList

/-- Does `pat` occur anywhere in `l`? (JS `String.prototype.includes`.) -/
def seqInside (pat : List Char) : List Char → Bool
  | [] => pat.isEmpty
  | c :: rest => seqLeads pat (c :: rest) || seqInside pat rest

/-- Models JS `String.prototype.includes`. -/
def strHas (pat s : String) : Bool := seqInside pat.toList s.toList

/-- Models `title.replace(/^[^-]+ - /, "")`.  The regex is anchored, `[^-]+`
is greedy with backtracking and must be followed by the literal `" - "`; since
every character of the `[^-]+` segment is a non-dash, the dash of the literal
can only be the first dash of the string.  Hence the regex matches exactly
when the first dash is at an index `i ≥ 2` and is surrounded by spaces, and
the match then covers the first `i + 2` characters. -/
def stripTitleHead (l : List Char) : List Char :=
  match l.findIdx? (fun c => c = '-') with
  | none => l
  | some i =>
    if 2 ≤ i ∧ l[i-1]? = some ' ' ∧ l[i+1]? = some ' ' then l.drop (i+2) else l

/-- The Unicode NFD decompositions of the precomposed Latin letters that occur
in the catalog (the French diacritics the title formatter is meant to strip):
base letter followed by its combining mark. -/
def nfdTable : List (Char × List Char) :=
  [('à', ['a', '̀']), ('â', ['a', '̂']), ('ç', ['c', '̧']),
   ('è', ['e', '̀']), ('é', ['e', '́']), ('ê', ['e', '̂']),
   ('î', ['i', '̂']), ('ô', ['o', '̂']), ('û', ['u', '̂']),
   ('ü', ['u', '̈']), ('À', ['A', '̀']), ('É', ['E', '́']),
   ('È', ['E', '̀']), ('Ç', ['C', '̧'])]

/-- Models `String.prototype.normalize("NFD")` character-wise: characters in
the decomposition table decompose, every other character is NFD-normal
already and maps to itself. -/
def nfdChar (c : Char) : List Char := (nfdTable.lookup c).getD [c]

/-- The combining-mark range `[̀-ͯ]` removed by the title
formatter. -/
def isCombiningMark (c : Char) : Bool := 0x300 ≤ c.toNat && c.toNat ≤ 0x36f

/-- Models `.normalize("NFD").replace(/[̀-ͯ]/g, "")`. -/
def nfdStrip (l : List Char) : List Char :=
  ((l.map nfdChar).flatten).filter (fun c => !isCombiningMark c)

/-- The title-formatting transform applied to every recommended album title:
strip a leading `"<anything> - "` prefix, trim, NFD-decompose and remove
combining marks (recommendations.service.ts, e.g. lines 469-473). -/
def formatTitle (s : String) : String :=
  String.mk (nfdStrip (trimChars (stripTitleHead s.toList)))

/-! ## Data model (album.interface.ts / user.interface.ts) -/

/-- A song inside an album document. -/
structure Song where
  title : String
  file : String
deriving DecidableEq, Repr

/-- An album document (`IAlbum`); `id` models the Mongo `_id` string. -/
structure Album where
  id : String
  title : String
  artist : List String
  genre : List String
  lang : String
  cover : String
  songs : List Song
deriving DecidableEq, Repr

/-- `ISongWithAlbumInfo`: a catalog song annotated with its album. -/
structure SongWithAlbumInfo where
  title : String
  file : String
  albumTitle : String
  albumArtist : List String
  albumCover : String
  albumLang : String
  albumId : String
deriving DecidableEq, Repr

/-- Models `AlbumsFormatUtils.formatCoverUrl`; `encodeURI` is modelled as the
identity (no claim inspects the percent-encoding of covers), and the model
assumes `CDN_URL` is configured (`cdnUrl` parameter). -/
def formatCoverUrl (cdnUrl : String) (cover : String) : String :=
  if strTrim cover = "" then ""
  else if !(strStarts "http" cover) && !(strStarts "//" cover) then
    cdnUrl ++ "/" ++ cover
  else cover

/-- The formatting applied to every recommended album (title transform, cover
resolution; the derived `songLength` annotation of the source is not carried
since no claim mentions it). -/
def formatAlbum (cdnUrl : String) (a : Album) : Album :=
  { a with title := formatTitle a.title, cover := formatCoverUrl cdnUrl a.cover }

/-- Formatting of a song match (`getSongBasedRecommendations`). -/
def formatSongInfo (cdnUrl : String) (s : SongWithAlbumInfo) : SongWithAlbumInfo :=
  { s with albumTitle := formatTitle s.albumTitle,
           albumCover := formatCoverUrl cdnUrl s.albumCover }

/-- Catalog lookup by Mongo `_id` (`AlbumModel.findById` relative to an
in-memory catalog, and the `albumMap.get` lookups of the wrapped module). -/
def findAlbum (catalog : List Album) (id : String) : Option Album :=
  catalog.find? (fun a => a.id = id)

/-- Insertion-ordered counter map, modelling `acc[key] = (acc[key] || 0) + v`
on a plain JS object (string keys keep insertion order). -/
def bumpCount (k : String) (v : Int) : List (String × Int) → List (String × Int)
  | [] => [(k, v)]
  | p :: rest => if p.1 = k then (p.1, p.2 + v) :: rest else p :: bumpCount k v rest

namespace Reco

/-! ## recommendations.service.ts -/

/-- `ListenedSongStats` (user.interface.ts); timestamps are epoch
milliseconds, as consumed by `applyRecencyWeighting`. -/
structure ListenedSongStats where
  songTitle : String
  songFile : String
  albumId : String
  playCount : Int
  listenHistory : List Int
deriving DecidableEq, Repr

/-- `ListenedAlbumStats` (user.interface.ts). -/
structure ListenedAlbumStats where
  albumId : String
  playCount : Int
  listenHistory : List Int
deriving DecidableEq, Repr

/-- The slice of `IUser` the recommendations service reads. -/
structure User where
  listenedSongs : List ListenedSongStats
  listenedAlbums : List ListenedAlbumStats
deriving DecidableEq, Repr

/-- `RecommendationWeights`. -/
structure RecommendationWeights where
  similarArtists : ℚ
  favoriteGenres : ℚ
  listenedAlbums : ℚ
  favoriteSongs : ℚ
  recency : ℚ
  popularity : ℚ
deriving DecidableEq, Repr

/-- The service's `defaultWeights`. -/
def defaultWeights : RecommendationWeights :=
  { similarArtists := 4, favoriteGenres := 5, listenedAlbums := 3,
    favoriteSongs := 2, recency := 1.5, popularity := 1 }

/-- A caller-supplied `Partial<RecommendationWeights>`. -/
structure WeightsUpdate where
  similarArtists : Option ℚ := none
  favoriteGenres : Option ℚ := none
  listenedAlbums : Option ℚ := none
  favoriteSongs : Option ℚ := none
  recency : Option ℚ := none
  popularity : Option ℚ := none
deriving DecidableEq, Repr

/-- Models `{ ...this.defaultWeights, ...weights }`: per-key merge of the
caller's weights over the defaults. -/
def mergeWeights (w : WeightsUpdate) : RecommendationWeights :=
  { similarArtists := w.similarArtists.getD defaultWeights.similarArtists,
    favoriteGenres := w.favoriteGenres.getD defaultWeights.favoriteGenres,
    listenedAlbums := w.listenedAlbums.getD defaultWeights.listenedAlbums,
    favoriteSongs := w.favoriteSongs.getD defaultWeights.favoriteSongs,
    recency := w.recency.getD defaultWeights.recency,
    popularity := w.popularity.getD defaultWeights.popularity }

/-- `TIME_PERIODS.RECENT` in milliseconds. -/
def TIME_PERIODS_RECENT : Int := 7 * 24 * 60 * 60 * 1000

/-- `TIME_PERIODS.MEDIUM` in milliseconds. -/
def TIME_PERIODS_MEDIUM : Int := 30 * 24 * 60 * 60 * 1000

/-- `TIME_PERIODS.OLD` in milliseconds. -/
def TIME_PERIODS_OLD : Int := 90 * 24 * 60 * 60 * 1000

/-- The recency step function of `applyRecencyWeighting`: the source starts
from `RECENCY_WEIGHTS.OLDER` and overrides it through an if/else-if chain on
`timeDiff`, which is equivalent to this nested conditional. -/
def recencyFactor (timeDiff : Int) : ℚ :=
  if timeDiff < TIME_PERIODS_RECENT then 1.0
  else if timeDiff < TIME_PERIODS_MEDIUM then 0.6
  else if timeDiff < TIME_PERIODS_OLD then 0.3
  else 0.1

/-- Models `Math.max(...history)` on a nonempty listen history (the source
only evaluates it under a nonemptiness guard). -/
def listMax : List Int → Int
  | [] => 0
  | a :: as => as.foldl max a

/-- Recency weighting of one listened-album entry: when the entry has listen
history, `playCount` becomes `Math.ceil(playCount * recencyFactor * w)`;
an entry with no history is returned unchanged (the `if` of the source only
rewrites `playCount` when `listenHistory` is nonempty). -/
def weightAlbumEntry (now : Int) (w : ℚ) (a : ListenedAlbumStats) :
    ListenedAlbumStats :=
  match a.listenHistory with
  | [] => a
  | h :: t =>
    { a with playCount :=
        jsCeil ((a.playCount : ℚ) * recencyFactor (now - listMax (h :: t)) * w) }

/-- Recency weighting of one listened-song entry (same scheme as albums). -/
def weightSongEntry (now : Int) (w : ℚ) (s : ListenedSongStats) :
    ListenedSongStats :=
  match s.listenHistory with
  | [] => s
  | h :: t =>
    { s with playCount :=
        jsCeil ((s.playCount : ℚ) * recencyFactor (now - listMax (h :: t)) * w) }

/-- `applyRecencyWeighting(user, recencyWeight)` at current time `now`. -/
def applyRecencyWeighting (now : Int) (user : User) (recencyWeight : ℚ) : User :=
  { listenedSongs := user.listenedSongs.map (weightSongEntry now recencyWeight),
    listenedAlbums := user.listenedAlbums.map (weightAlbumEntry now recencyWeight) }

/-- `getTopListenedSongs`: song stats sorted by play count descending, first
`limit`, each resolved to its (possibly missing) album document. -/
def getTopListenedSongs (catalog : List Album) (user : User) (limit : Nat) :
    List (String × Option Album) :=
  ((jsSortBy (fun (a b : ListenedSongStats) => b.playCount ≤ a.playCount)
      user.listenedSongs).take limit).map
    (fun s => (s.songTitle, findAlbum catalog s.albumId))

/-- Common attribution scheme of `calculateFavoriteGenres` and
`calculateTopArtists`: each listened album contributes its `playCount` (with
the `listenedAlbum?.playCount || 1` fallback of the source, under which a
missing entry or a zero count contributes 1) to every tag `proj` extracts. -/
def attributedCounts (catalog : List Album) (user : User)
    (proj : Album → List String) : List (String × Int) :=
  let albumIds := user.listenedAlbums.map (fun la => la.albumId)
  let albums := catalog.filter (fun a => albumIds.contains a.id)
  albums.foldl (fun acc album =>
    let playCount :=
      match user.listenedAlbums.find? (fun la => la.albumId = album.id) with
      | some la => if la.playCount = 0 then 1 else la.playCount
      | none => 1
    (proj album).foldl (fun acc2 g => bumpCount g playCount acc2) acc) []

/-- `calculateFavoriteGenres`: top 3 genres by attributed play count. -/
def calculateFavoriteGenres (catalog : List Album) (user : User) : List String :=
  ((jsSortBy (fun (a b : String × Int) => b.2 ≤ a.2)
      (attributedCounts catalog user (fun a => a.genre))).map (fun p => p.1)).take 3

/-- `calculateTopArtists`: top 5 artists by attributed play count. -/
def calculateTopArtists (catalog : List Album) (user : User) : List String :=
  ((jsSortBy (fun (a b : String × Int) => b.2 ≤ a.2)
      (attributedCounts catalog user (fun a => a.artist))).map (fun p => p.1)).take 5

/-- `getAlbumPopularityData`: per-album total play count over the whole user
population, sorted descending (the `$group`/`$sort` aggregation; Mongo leaves
the order of ties unspecified, modelled here as stable). -/
def getAlbumPopularityData (allUsers : List User) : List (String × Int) :=
  jsSortBy (fun (a b : String × Int) => b.2 ≤ a.2)
    ((allUsers.map (fun u => u.listenedAlbums)).flatten.foldl
      (fun acc la => bumpCount la.albumId la.playCount acc) [])

/-- `popularityMap.get(albumId) || 0`. -/
def popLookup (pop : List (String × Int)) (id : String) : Int :=
  match pop.find? (fun p => p.1 = id) with
  | some p => p.2
  | none => 0

/-- `popularityData.length > 0 ? popularityData[0].playCount : 1`. -/
def maxPopularity (pop : List (String × Int)) : ℚ :=
  match pop with
  | [] => 1
  | p :: _ => (p.2 : ℚ)

/-- The per-candidate score `random * (1 - popularityWeight) +
(popularityScore / maxPopularity) * popularityWeight`; `rand i` is the
`Math.random()` value drawn for the i-th candidate.  (When the top popularity
total is 0 the JS division produces NaN/Infinity while `ℚ` division yields 0;
no claim depends on score values in that degenerate case.) -/
def scoreAlbums (rand : Nat → ℚ) (pop : List (String × Int)) (pw : ℚ)
    (albums : List Album) : List (Album × ℚ) :=
  albums.enum.map (fun p =>
    (p.2, rand p.1 * (1 - pw) + ((popLookup pop p.2.id : ℚ) / maxPopularity pop) * pw))

/-- `scoredAlbums.sort((a, b) => b.score - a.score).slice(0, maxSize)
.map(item => item.album)`. -/
def rankByScore (scored : List (Album × ℚ)) (maxSize : Int) : List Album :=
  (jsSlice0 (jsSortBy (fun (a b : Album × ℚ) => b.2 ≤ a.2) scored) maxSize).map
    (fun p => p.1)

/-- `getArtistBasedRecommendations` (cache-miss path): candidates are catalog
albums sharing an artist with the profile, capped at
`Math.min(15, Math.floor(15 * weight))` after the score sort. -/
def getArtistBasedRecommendations (catalog : List Album) (allUsers : List User)
    (rand : Nat → ℚ) (cdnUrl : String) (artists : List String) (weight pw : ℚ) :
    List Album :=
  if artists.isEmpty then []
  else
    let maxSize := min 15 (jsFloor (15 * weight))
    let matching := catalog.filter (fun a => a.artist.any (fun x => artists.contains x))
    let scored := scoreAlbums rand (getAlbumPopularityData allUsers) pw matching
    (rankByScore scored maxSize).map (formatAlbum cdnUrl)

/-- `getGenreBasedRecommendations`, capped at
`Math.min(6, Math.floor(6 * weight))`. -/
def getGenreBasedRecommendations (catalog : List Album) (allUsers : List User)
    (rand : Nat → ℚ) (cdnUrl : String) (genres : List String) (weight pw : ℚ) :
    List Album :=
  if genres.isEmpty then []
  else
    let maxSize := min 6 (jsFloor (6 * weight))
    let matching := catalog.filter (fun a => a.genre.any (fun g => genres.contains g))
    let scored := scoreAlbums rand (getAlbumPopularityData allUsers) pw matching
    (rankByScore scored maxSize).map (formatAlbum cdnUrl)

/-- Models mongoose `isValidObjectId` on strings: 24 hexadecimal characters,
or any 12-character string (12-byte buffer form). -/
def isValidObjectId (s : String) : Bool :=
  (s.length = 24 && s.toList.all (fun c =>
    c.isDigit || ('a' ≤ c && c ≤ 'f') || ('A' ≤ c && c ≤ 'F'))) || s.length = 12

/-- `getListenedAlbumsRecommendations` (cache-miss path).  Returns `none`
(JS `undefined`, a bare `return;`) when the user has no listened albums.
Note the source filters the top-8 album ids with `!isValidObjectId(id)`,
keeping only the invalid ids.  The artist/genre `Set`s only serve membership
tests, so they are modelled as (possibly duplicated) lists. -/
def getListenedAlbumsRecommendations (catalog : List Album) (allUsers : List User)
    (rand : Nat → ℚ) (cdnUrl : String) (user : User) (weight pw : ℚ) :
    Option (List Album) :=
  if user.listenedAlbums.isEmpty then none
  else some (
    let maxSize := min 8 (jsFloor (8 * weight))
    let albumIds := (((jsSortBy
        (fun (a b : ListenedAlbumStats) => b.playCount ≤ a.playCount)
        user.listenedAlbums).take 8).map (fun la => la.albumId)).filter
      (fun id => !isValidObjectId id)
    let topAlbums := catalog.filter (fun a => albumIds.contains a.id)
    let artists := (topAlbums.map (fun a => a.artist)).flatten
    let genres := (topAlbums.map (fun a => a.genre)).flatten
    let matching := catalog.filter (fun a =>
      (a.artist.any (fun x => artists.contains x) ||
        a.genre.any (fun g => genres.contains g)) && !albumIds.contains a.id)
    let scored := scoreAlbums rand (getAlbumPopularityData allUsers) pw matching
    (rankByScore scored maxSize).map (formatAlbum cdnUrl))

/-- `getSongBasedRecommendations` (cache-miss path).  The source orders the
matches with `sort(() => Math.random() - 0.5 * (1 - popularityWeight))`, an
element-independent random comparator; that shuffle is modelled by the
`reorder` parameter (which absorbs the popularity-weight bias), and the
result is capped by `slice(0, Math.floor(6 * weight))`. -/
def getSongBasedRecommendations (catalog : List Album)
    (reorder : List SongWithAlbumInfo → List SongWithAlbumInfo) (cdnUrl : String)
    (songs : List (String × Option Album)) (weight : ℚ) : List SongWithAlbumInfo :=
  if songs.isEmpty then []
  else
    let songTitles := songs.map (fun s => s.1)
    let matching := catalog.filter (fun a =>
      a.songs.any (fun s => songTitles.contains s.title))
    let songMatches := (matching.map (fun a =>
      (a.songs.filter (fun s => songTitles.contains s.title)).map (fun s =>
        { title := s.title, file := s.file, albumTitle := a.title,
          albumArtist := a.artist, albumCover := a.cover, albumLang := a.lang,
          albumId := a.id : SongWithAlbumInfo }))).flatten
    let selected := jsSlice0 (reorder songMatches) (jsFloor (6 * weight))
    selected.map (formatSongInfo cdnUrl)

/-- `getFavoriteAlbums` (cache-miss path): expand the user's favorited albums
to same-artist albums not already favorited, `$sample` 15 of them (the
`sample15` parameter), format, and sort alphabetically by title
(`localeCompare`, modelled as the Lean `String` order). -/
def getFavoriteAlbums (catalog : List Album) (sample15 : List Album → List Album)
    (cdnUrl : String) (favoriteAlbumIds : List String) : List Album :=
  if favoriteAlbumIds.isEmpty then []
  else
    let favoriteAlbumsDetails := catalog.filter (fun a => favoriteAlbumIds.contains a.id)
    let favoriteArtists := (favoriteAlbumsDetails.map (fun a => a.artist)).flatten
    if favoriteArtists.isEmpty then []
    else
      let recommended := sample15 (catalog.filter (fun a =>
        a.artist.any (fun x => favoriteArtists.contains x) &&
          !favoriteAlbumIds.contains a.id))
      jsSortBy (fun (a b : Album) => a.title ≤ b.title)
        (recommended.map (formatAlbum cdnUrl))

/-- `filterAlreadyListened`: drop albums the user has already listened to,
falling back to the first 3 unfiltered recommendations when the filter empties
a nonempty list.  (`sanitize` is the identity on plain string ids.) -/
def filterAlreadyListened (recs : List Album) (user : User) : List Album :=
  if recs.isEmpty then []
  else
    let listenedAlbumIds := user.listenedAlbums.map (fun la => la.albumId)
    let filtered := recs.filter (fun a => !listenedAlbumIds.contains a.id)
    if filtered.isEmpty && !recs.isEmpty then recs.take 3 else filtered

/-- `RecommendationResult`; `basedOnListenedAlbums` is optional in the source
interface and is left `undefined` (`none`) when the user has no listened
albums. -/
structure RecommendationResult where
  basedOnArtists : List Album
  basedOnGenres : List Album
  favoriteAlbums : List Album
  similarToLikedSongs : List SongWithAlbumInfo
  basedOnListenedAlbums : Option (List Album)
deriving DecidableEq, Repr

/-- The song dedup key: `song.title.toLowerCase().trim()`. -/
def songKey (s : SongWithAlbumInfo) : String := strTrim (jsToLower s.title)

/-- The album half of `removeDuplicates`: one pass of `dedupeAlbums` with the
shared mutable `seenAlbums` set threaded explicitly.  An album resolves its
key as `_id?.toString() || albumId?.toString()`; an album document whose
`_id` is the empty string therefore yields a falsy key and is dropped
unconditionally (`if (!id …) return false`). -/
def dedupeAlbumsAux (seen : List String) : List Album → List Album × List String
  | [] => ([], seen)
  | a :: rest =>
    if a.id = "" ∨ a.id ∈ seen then dedupeAlbumsAux seen rest
    else
      let p := dedupeAlbumsAux (a.id :: seen) rest
      (a :: p.1, p.2)

/-- The song half of `removeDuplicates` (its `seenSongs` set is independent of
the album set, so the final accumulator is not needed). -/
def dedupeSongsAux (seen : List String) :
    List SongWithAlbumInfo → List SongWithAlbumInfo
  | [] => []
  | s :: rest =>
    if songKey s ∈ seen then dedupeSongsAux seen rest
    else s :: dedupeSongsAux (songKey s :: seen) rest

/-- `removeDuplicates`: the album lists share one `seenAlbums` set, visited in
the evaluation order of the result literal — artists, genres, favorites, then
listened-albums (when present); songs are deduped separately by
lowercased-trimmed title. -/
def removeDuplicates (r : RecommendationResult) : RecommendationResult :=
  let p1 := dedupeAlbumsAux [] r.basedOnArtists
  let p2 := dedupeAlbumsAux p1.2 r.basedOnGenres
  let p3 := dedupeAlbumsAux p2.2 r.favoriteAlbums
  { basedOnArtists := p1.1,
    basedOnGenres := p2.1,
    favoriteAlbums := p3.1,
    similarToLikedSongs := dedupeSongsAux [] r.similarToLikedSongs,
    basedOnListenedAlbums :=
      r.basedOnListenedAlbums.map (fun l => (dedupeAlbumsAux p3.2 l).1) }

/-- The two error conditions `generateRecommendations` can throw. -/
inductive RecError where
  | userNotFound
  | noListeningHistory
deriving DecidableEq, Repr

/-- The `Error` messages thrown by `generateRecommendations`. -/
def recErrorMessage : RecError → String
  | .userNotFound => "User not found"
  | .noListeningHistory => "No listening history available for recommendations"

/-- The HTTP status the recommendations controller maps a service error to:
404 exactly when `error.message.includes("No listening history")`, 500
otherwise (recommendations.controller.ts, lines 54-63). -/
def recErrorStatus (e : RecError) : Nat :=
  if strHas "No listening history" (recErrorMessage e) then 404 else 500

/-- The collaborators and random sources `generateRecommendations` consumes:
the album catalog, the full user population (for the popularity index), the
requesting user's favorited album ids, the current time, the CDN base URL,
one `Math.random()` stream per scored category, the Mongo `$sample` of the
favorite-albums expansion, and the random shuffle of the song category. -/
structure Env where
  catalog : List Album
  allUsers : List User
  favoriteAlbumIds : List String
  now : Int
  cdnUrl : String
  randArtist : Nat → ℚ
  randGenre : Nat → ℚ
  randListened : Nat → ℚ
  sample15 : List Album → List Album
  reorderSongs : List SongWithAlbumInfo → List SongWithAlbumInfo

/-- `generateRecommendations(userId, weights, forceRefresh)` on the cache-miss
path (the caches only ever hold values this very computation produced).
`userLookup` is the result of the `UserModel.findById` resolution; a missing
user throws `User not found`, a user with no listened albums and no listened
songs throws the no-history error, and otherwise the five category lists are
computed and deduplicated. -/
def generateRecommendations (env : Env) (userLookup : Option User)
    (weights : WeightsUpdate) : Except RecError RecommendationResult :=
  match userLookup with
  | none => .error .userNotFound
  | some user =>
    if user.listenedAlbums.isEmpty && user.listenedSongs.isEmpty then
      .error .noListeningHistory
    else
      let fw := mergeWeights weights
      let topSongs := getTopListenedSongs env.catalog user 20
      let favoriteGenres := calculateFavoriteGenres env.catalog user
      let favoriteArtists := calculateTopArtists env.catalog user
      let favoriteAlbums :=
        getFavoriteAlbums env.catalog env.sample15 env.cdnUrl env.favoriteAlbumIds
      let recencyWeightedUser := applyRecencyWeighting env.now user fw.recency
      .ok (removeDuplicates
        { basedOnArtists := getArtistBasedRecommendations env.catalog env.allUsers
            env.randArtist env.cdnUrl favoriteArtists fw.similarArtists fw.popularity,
          basedOnGenres := getGenreBasedRecommendations env.catalog env.allUsers
            env.randGenre env.cdnUrl favoriteGenres fw.favoriteGenres fw.popularity,
          favoriteAlbums := filterAlreadyListened favoriteAlbums user,
          similarToLikedSongs := getSongBasedRecommendations env.catalog
            env.reorderSongs env.cdnUrl topSongs fw.favoriteSongs,
          basedOnListenedAlbums := getListenedAlbumsRecommendations env.catalog
            env.allUsers env.randListened env.cdnUrl recencyWeightedUser
            fw.listenedAlbums fw.popularity })

end Reco

namespace Wrapped

/-! ## The wrapped-statistics module (getWrapped and its helpers) -/

/-- A listen timestamp at the granularity the wrapped module observes: in a
fixed local timezone, chronological order of JS `Date`s coincides with the
lexicographic order of (year, day-of-year, hour-of-day), `getFullYear` is the
`year` field, `getHours` the `hour` field, and `new Date(y, 0, 1)` is
`⟨y, 1, 0⟩`.  (All dates in the model are valid; the invalid-date skip path
of `calculateListeningTimes` is not exercised by any claim.) -/
structure DateTime where
  year : Int
  doy : Nat
  hour : Nat
deriving DecidableEq, Repr

/-- Strict chronological order of two timestamps (JS `Date` `<`). -/
def dateLt (a b : DateTime) : Bool :=
  a.year < b.year || (a.year = b.year &&
    (a.doy < b.doy || (a.doy = b.doy && a.hour < b.hour)))

/-- Chronological order of two timestamps (JS `Date` `>=`, flipped). -/
def dateLe (a b : DateTime) : Bool := dateLt a b || a = b

/-- `new Date(year, 0, 1)`: midnight of January 1. -/
def startOfYear (y : Int) : DateTime := { year := y, doy := 1, hour := 0 }

/-- The yearly filter of `getWrapped`:
`listenHistory.some(date => date >= startDate && date < endDate)`. -/
def hasEventInYear (y : Int) (hist : List DateTime) : Bool :=
  hist.any (fun d => dateLe (startOfYear y) d && dateLt d (startOfYear (y+1)))

/-- `ListenedSongStats` as the wrapped module consumes it. -/
structure ListenedSongStats where
  songTitle : String
  songFile : String
  albumId : String
  playCount : Int
  listenHistory : List DateTime
deriving DecidableEq, Repr

/-- `ListenedAlbumStats` as the wrapped module consumes it. -/
structure ListenedAlbumStats where
  albumId : String
  playCount : Int
  listenHistory : List DateTime
deriving DecidableEq, Repr

/-- The slice of `IUser` the wrapped module reads. -/
structure User where
  listenedSongs : List ListenedSongStats
  listenedAlbums : List ListenedAlbumStats
deriving DecidableEq, Repr

/-- `DEFAULT_SONG_DURATION_MINUTES`. -/
def DEFAULT_SONG_DURATION_MINUTES : Int := 3

/-- `TOP_PERFORMANCE_PERCENTILE_THRESHOLD`. -/
def TOP_PERFORMANCE_PERCENTILE_THRESHOLD : ℚ := 10

/-- `MIN_TOP_PERCENT`. -/
def MIN_TOP_PERCENT : ℚ := 0.1

/-- `PercentileResult`. -/
structure PercentileResult where
  albumId : String
  artist : List String
  percentile : ℚ
  topPercent : ℚ
  totalListens : Int
deriving DecidableEq, Repr

/-- The population play-count distribution for one album: every user's
`listenedAlbums` entry for that album contributes its `playCount`, in
traversal order (the `albumPlayCounts` map of
`calculateListeningPercentiles`; the `typeof playCount === "number"` guard
always holds in the model). -/
def albumPlayCounts (allUsers : List User) (albumId : String) : List Int :=
  (allUsers.map (fun u => u.listenedAlbums)).flatten.filterMap
    (fun a => if a.albumId = albumId then some a.playCount else none)

/-- The per-album body of `calculateListeningPercentiles`: a distribution
with at most one entry yields percentile 0 and `topPercent = MIN_TOP_PERCENT`;
otherwise `percentile = betterThanCount / totalListeners * 100` and
`topPercent = max(MIN_TOP_PERCENT, 100 - percentile)` rounded to one
decimal. -/
def percentileFor (albumMap : List Album) (allUsers : List User)
    (albumId : String) (userPlayCount : Int) : PercentileResult :=
  let allPlays := albumPlayCounts allUsers albumId
  let artist := ((findAlbum albumMap albumId).map (fun a => a.artist)).getD []
  if allPlays.length ≤ 1 then
    { albumId := albumId, artist := artist, percentile := 0,
      topPercent := MIN_TOP_PERCENT, totalListens := userPlayCount }
  else
    let betterThanCount := (allPlays.filter (fun c => c < userPlayCount)).length
    let totalListeners := allPlays.length
    let percentile : ℚ :=
      if 0 < totalListeners then (betterThanCount : ℚ) / (totalListeners : ℚ) * 100
      else 0
    { albumId := albumId, artist := artist, percentile := percentile,
      topPercent := jsRound1 (max MIN_TOP_PERCENT (100 - percentile)),
      totalListens := userPlayCount }

/-- `calculateListeningPercentiles`: one `PercentileResult` per entry of the
user's (year-unfiltered) `listenedAlbums`. -/
def calculateListeningPercentiles (user : User) (albumMap : List Album)
    (allUsers : List User) : List PercentileResult :=
  user.listenedAlbums.map (fun a => percentileFor albumMap allUsers a.albumId a.playCount)

/-- The per-artist accumulator of `aggregateArtistStats` (the `albumIds`
`Set` keeps insertion order). -/
structure ArtistAcc where
  totalListens : Int
  bestPercentile : ℚ
  albumIds : List String
deriving DecidableEq, Repr

/-- JS `Set.prototype.add` on an insertion-ordered string set. -/
def addToSet (x : String) (l : List String) : List String :=
  if l.contains x then l else l ++ [x]

/-- One artist update of `aggregateArtistStats`: insert the artist with the
neutral accumulator `{0, 101, ∅}` if absent, then fold the album stat in. -/
def updateArtist (r : PercentileResult) (name : String) :
    List (String × ArtistAcc) → List (String × ArtistAcc)
  | [] => [(name, { totalListens := r.totalListens,
                    bestPercentile := min 101 r.percentile,
                    albumIds := [r.albumId] })]
  | p :: rest =>
    if p.1 = name then
      (p.1, { totalListens := p.2.totalListens + r.totalListens,
              bestPercentile := min p.2.bestPercentile r.percentile,
              albumIds := addToSet r.albumId p.2.albumIds }) :: rest
    else p :: updateArtist r name rest

/-- `AggregatedArtistStat`. -/
structure AggregatedArtistStat where
  artistName : String
  totalListens : Int
  bestPercentile : ℚ
  albumIds : List String
deriving DecidableEq, Repr

/-- `aggregateArtistStats`: fold every per-album percentile into every of its
artists, then clamp a `bestPercentile` above 100 down to 100. -/
def aggregateArtistStats (l : List PercentileResult) : List AggregatedArtistStat :=
  (l.foldl (fun m r => r.artist.foldl (fun m2 name => updateArtist r name m2) m) []).map
    (fun p => { artistName := p.1, totalListens := p.2.totalListens,
                bestPercentile :=
                  if (100 : ℚ) < p.2.bestPercentile then 100 else p.2.bestPercentile,
                albumIds := p.2.albumIds })

/-- `calculateGlobalPercentile`: 50 with no aggregated stats; otherwise from
the best (lowest) `bestPercentile`, with the 0 case pinned to
`MIN_TOP_PERCENT`. -/
def calculateGlobalPercentile (stats : List AggregatedArtistStat) : ℚ :=
  match stats with
  | [] => 50
  | s :: rest =>
    let best := (rest.map (fun x => x.bestPercentile)).foldl min s.bestPercentile
    if best = 0 then MIN_TOP_PERCENT
    else jsRound1 (max MIN_TOP_PERCENT (100 - best))

/-- `WrappedSong`. -/
structure WrappedSong where
  title : String
  artist : String
  playCount : Int
deriving DecidableEq, Repr

/-- `calculateTopSongs`: top 5 by play count with `"Titre Inconnu"` /
`"Artiste Inconnu"` sentinels for falsy titles and unresolved albums
(`album?.artist?.join(" & ") || "Artiste Inconnu"`).  `playCount || 0` is the
identity on integers. -/
def calculateTopSongs (listenedSongs : List ListenedSongStats)
    (albumMap : List Album) : List WrappedSong :=
  ((jsSortBy (fun (a b : ListenedSongStats) => b.playCount ≤ a.playCount)
      listenedSongs).take 5).map (fun song =>
    let joined :=
      match findAlbum albumMap song.albumId with
      | some a => String.intercalate " & " a.artist
      | none => ""
    { title := if song.songTitle = "" then "Titre Inconnu" else song.songTitle,
      artist := if joined = "" then "Artiste Inconnu" else joined,
      playCount := song.playCount })

/-- `WrappedAlbum`. -/
structure WrappedAlbum where
  title : String
  artist : List String
  coverUrl : String
  playCount : Int
deriving DecidableEq, Repr

/-- `calculateTopAlbums`: top 6 by play count; cover resolution passes
absolute URLs through, prefixes relative ones with the CDN base (stripping a
leading slash; `encodeURI` modelled as the identity) and otherwise falls back
to the default placeholder. -/
def calculateTopAlbums (cdnUrl : String) (listenedAlbums : List ListenedAlbumStats)
    (albumMap : List Album) : List WrappedAlbum :=
  ((jsSortBy (fun (a b : ListenedAlbumStats) => b.playCount ≤ a.playCount)
      listenedAlbums).take 6).map (fun la =>
    let albumData := findAlbum albumMap la.albumId
    let coverPath := (albumData.map (fun a => a.cover)).getD ""
    let formattedCover :=
      if coverPath = "" then "/assets/default-cover.jpg"
      else if strStarts "http" coverPath then coverPath
      else if cdnUrl ≠ "" then
        cdnUrl ++ "/" ++ (if strStarts "/" coverPath then coverPath.drop 1 else coverPath)
      else "/assets/default-cover.jpg"
    let title :=
      match albumData with
      | some a => if a.title = "" then "Album Inconnu" else a.title
      | none => "Album Inconnu"
    { title := title, artist := (albumData.map (fun a => a.artist)).getD [],
      coverUrl := formattedCover, playCount := la.playCount })

/-- The four time-of-day buckets. -/
structure ListeningTimes where
  morning : Int
  afternoon : Int
  evening : Int
  night : Int
deriving DecidableEq, Repr

/-- The hour bucketing of `calculateListeningTimes`: morning `[6,12)`,
afternoon `[12,18)`, evening `[18,24)`, night `[0,6)`. -/
def bucketHour (t : ListeningTimes) (hour : Nat) : ListeningTimes :=
  if 6 ≤ hour ∧ hour < 12 then { t with morning := t.morning + 1 }
  else if 12 ≤ hour ∧ hour < 18 then { t with afternoon := t.afternoon + 1 }
  else if 18 ≤ hour ∧ hour < 24 then { t with evening := t.evening + 1 }
  else if hour < 6 then { t with night := t.night + 1 }
  else t

/-- `calculateListeningTimes`: bucket every individual timestamp of every
entry passed in (note: every timestamp of the entry's history, with no date
filter of its own). -/
def calculateListeningTimes (listenedSongs : List ListenedSongStats) : ListeningTimes :=
  listenedSongs.foldl
    (fun t song => song.listenHistory.foldl (fun t2 d => bucketHour t2 d.hour) t)
    { morning := 0, afternoon := 0, evening := 0, night := 0 }

/-- `calculateLanguageBreakdown`: sum play counts per resolvable album
language (falsy language codes contribute nothing). -/
def calculateLanguageBreakdown (listenedAlbums : List ListenedAlbumStats)
    (albumMap : List Album) : List (String × Int) :=
  listenedAlbums.foldl (fun acc la =>
    match findAlbum albumMap la.albumId with
    | some a => if a.lang = "" then acc else bumpCount a.lang la.playCount acc
    | none => acc) []

/-- One `topPerformances` entry; `topPercentShown` is the
`roundedTopPercent` number interpolated into the localized message string. -/
structure TopPerformance where
  artistName : String
  topPercentShown : ℚ
  totalListens : Int
deriving DecidableEq, Repr

/-- The `topPerformances` computation of `getWrapped`: artists with
`bestPercentile ≤ 10`, ascending by `bestPercentile`; a `bestPercentile` of 0
is displayed as `MIN_TOP_PERCENT`, anything else as
`max(MIN_TOP_PERCENT, 100 - bestPercentile)` rounded to one decimal. -/
def topPerformances (stats : List AggregatedArtistStat) : List TopPerformance :=
  (jsSortBy (fun (a b : AggregatedArtistStat) => a.bestPercentile ≤ b.bestPercentile)
      (stats.filter (fun s => s.bestPercentile ≤ TOP_PERFORMANCE_PERCENTILE_THRESHOLD))).map
    (fun s =>
      { artistName := s.artistName,
        topPercentShown :=
          if s.bestPercentile = (0 : ℚ) then MIN_TOP_PERCENT
          else jsRound1 (max MIN_TOP_PERCENT ((100 : ℚ) - s.bestPercentile)),
        totalListens := s.totalListens })

/-- The wrapped payload (`stats` plus `topPerformances`). -/
structure WrappedStats where
  topSongs : List WrappedSong
  topAlbums : List WrappedAlbum
  languageBreakdown : List (String × Int)
  totalListens : Int
  listeningTimes : ListeningTimes
  totalMinutes : Int
  percentile : ℚ
  topPerformances : List TopPerformance
deriving DecidableEq, Repr

/-- The statistics computation of `getWrapped` for a resolved user:
`albumMap` is the catalog restricted to the user's listened albums, the song
and album entry lists are filtered to entries with at least one event in the
current calendar year, and the components are computed as in the source
(`Math.round` on the integral minute total is the identity). -/
def wrappedStats (currentYear : Int) (cdnUrl : String) (catalog : List Album)
    (allUsers : List User) (user : User) : WrappedStats :=
  let albumMap := catalog.filter (fun a =>
    user.listenedAlbums.any (fun la => la.albumId = a.id))
  let yearlySongs := user.listenedSongs.filter
    (fun s => hasEventInYear currentYear s.listenHistory)
  let yearlyAlbums := user.listenedAlbums.filter
    (fun a => hasEventInYear currentYear a.listenHistory)
  let artistStats :=
    aggregateArtistStats (calculateListeningPercentiles user albumMap allUsers)
  { topSongs := calculateTopSongs yearlySongs albumMap,
    topAlbums := calculateTopAlbums cdnUrl yearlyAlbums albumMap,
    languageBreakdown := calculateLanguageBreakdown yearlyAlbums albumMap,
    totalListens := (yearlySongs.map (fun s => s.playCount)).sum,
    listeningTimes := calculateListeningTimes yearlySongs,
    totalMinutes := (yearlySongs.map
      (fun s => s.playCount * DEFAULT_SONG_DURATION_MINUTES)).sum,
    percentile := calculateGlobalPercentile artistStats,
    topPerformances := topPerformances artistStats }

end Wrapped

/-! ## General lemmas about the JS helpers -/

theorem jsSlice0_length_le {α : Type} (l : List α) (e : Int) (he : 0 ≤ e) :
    ((jsSlice0 l e).length : Int) ≤ e := by
  unfold jsSlice0
  rw [if_neg (not_lt.mpr he)]
  have h1 : (l.take e.toNat).length ≤ e.toNat := by
    simp [List.length_take]
  omega

theorem insertOrdered_mem {α : Type} (le : α → α → Bool) (x : α) (ys : List α)
    (z : α) : z ∈ insertOrdered le x ys ↔ z = x ∨ z ∈ ys := by
  induction ys with
  | nil => simp [insertOrdered]
  | cons y ys ih =>
    by_cases h : le x y = true
    · rw [insertOrdered, if_pos h]
      simp [or_comm, or_assoc, or_left_comm]
    · rw [insertOrdered, if_neg h]
      simp [ih]
      tauto

theorem insertOrdered_pairwise {α : Type} (le : α → α → Bool)
    (htot : ∀ a b, le a b = false → le b a = true)
    (htrans : ∀ a b c, le a b = true → le b c = true → le a c = true)
    (x : α) (ys : List α) (hys : ys.Pairwise (fun a b => le a b = true)) :
    (insertOrdered le x ys).Pairwise (fun a b => le a b = true) := by
  induction ys with
  | nil => simp [insertOrdered]
  | cons y ys ih =>
    rcases List.pairwise_cons.mp hys with ⟨hy, hys2⟩
    by_cases h : le x y = true
    · rw [insertOrdered, if_pos h]
      refine List.pairwise_cons.mpr ⟨?_, hys⟩
      intro z hz
      rcases List.mem_cons.mp hz with rfl | hz2
      · exact h
      · exact htrans x y z h (hy z hz2)
    · rw [insertOrdered, if_neg h]
      refine List.pairwise_cons.mpr ⟨?_, ih hys2⟩
      intro z hz
      rcases (insertOrdered_mem le x ys z).mp hz with hzx | hz2
      · rw [hzx]
        exact htot x y (Bool.eq_false_iff.mpr h)
      · exact hy z hz2

theorem jsSortBy_pairwise {α : Type} (le : α → α → Bool)
    (htot : ∀ a b, le a b = false → le b a = true)
    (htrans : ∀ a b c, le a b = true → le b c = true → le a c = true)
    (l : List α) : (jsSortBy le l).Pairwise (fun a b => le a b = true) := by
  induction l with
  | nil => simp [jsSortBy]
  | cons y l ih => exact insertOrdered_pairwise le htot htrans y _ ih

theorem lookup_mem {β : Type} (l : List (Char × β)) (k : Char) (v : β)
    (h : l.lookup k = some v) : (k, v) ∈ l := by
  induction l with
  | nil => simp [List.lookup] at h
  | cons p l ih =>
    obtain ⟨a, b⟩ := p
    rw [List.lookup] at h
    cases hk : (k == a) with
    | false =>
      rw [hk] at h
      exact List.mem_cons_of_mem _ (ih h)
    | true =>
      rw [hk] at h
      have hka : k = a := by simpa using hk
      have hbv : b = v := by simpa using h
      subst hka
      subst hbv
      exact List.mem_cons_self _ _

/-- The character-level stability of the diacritic stripper: every character
surviving one strip pass is NFD-normal and not a combining mark. -/
theorem nfdChar_stable (c : Char) :
    ∀ d ∈ (nfdChar c).filter (fun x => !isCombiningMark x),
      nfdChar d = [d] ∧ isCombiningMark d = false := by
  cases h : nfdTable.lookup c with
  | none =>
    intro d hd
    rw [nfdChar, h, Option.getD_none] at hd
    rcases List.mem_filter.mp hd with ⟨hmem, hp⟩
    rcases List.mem_singleton.mp hmem with rfl
    refine ⟨?_, by simpa using hp⟩
    rw [nfdChar, h, Option.getD_none]
  | some L =>
    have hm : (c, L) ∈ nfdTable := lookup_mem _ _ _ h
    rw [nfdChar, h, Option.getD_some]
    fin_cases hm <;> decide

/-- Characters left untouched by a full diacritic-strip pass are a fixed point
of the pass. -/
theorem nfdStrip_fixed (m : List Char)
    (hm : ∀ d ∈ m, nfdChar d = [d] ∧ isCombiningMark d = false) :
    nfdStrip m = m := by
  induction m with
  | nil => rfl
  | cons d m ih =>
    have hd := hm d (List.mem_cons_self d m)
    have hrest := ih (fun x hx => hm x (List.mem_cons_of_mem d hx))
    rw [nfdStrip, List.map_cons, List.flatten_cons, List.filter_append, hd.1]
    rw [nfdStrip] at hrest
    rw [hrest]
    simp [hd.2]

theorem mem_nfdStrip (l : List Char) :
    ∀ d ∈ nfdStrip l, nfdChar d = [d] ∧ isCombiningMark d = false := by
  intro d hd
  rw [nfdStrip] at hd
  rcases List.mem_filter.mp hd with ⟨hmem, hp⟩
  rcases List.mem_flatten.mp hmem with ⟨L, hL, hdL⟩
  rcases List.mem_map.mp hL with ⟨c, _, rfl⟩
  exact nfdChar_stable c d (List.mem_filter.mpr ⟨hdL, hp⟩)

/-- The diacritic stripper is idempotent. -/
theorem nfdStrip_idem (l : List Char) : nfdStrip (nfdStrip l) = nfdStrip l :=
  nfdStrip_fixed _ (mem_nfdStrip l)

/-! ## Lemmas about the deduplication pass -/

namespace Reco

theorem dedupeAlbumsAux_seen_sub (l : List Album) (seen : List String) :
    ∀ s ∈ seen, s ∈ (dedupeAlbumsAux seen l).2 := by
  induction l generalizing seen with
  | nil => intro s hs; exact hs
  | cons b l ih =>
    intro s hs
    rw [dedupeAlbumsAux]
    split
    · exact ih seen s hs
    · exact ih (b.id :: seen) s (List.mem_cons_of_mem _ hs)

theorem dedupeAlbumsAux_mem (l : List Album) (seen : List String) :
    ∀ a ∈ (dedupeAlbumsAux seen l).1,
      a.id ∉ seen ∧ a.id ≠ "" ∧ a.id ∈ (dedupeAlbumsAux seen l).2 := by
  induction l generalizing seen with
  | nil => intro a ha; exact absurd ha (List.not_mem_nil a)
  | cons b l ih =>
    intro a ha
    by_cases hb : b.id = "" ∨ b.id ∈ seen
    · rw [dedupeAlbumsAux, if_pos hb] at ha ⊢
      exact ih seen a ha
    · push_neg at hb
      rw [dedupeAlbumsAux, if_neg (by push_neg; exact hb)] at ha ⊢
      rcases List.mem_cons.mp ha with rfl | ha2
      · exact ⟨hb.2, hb.1, dedupeAlbumsAux_seen_sub l (a.id :: seen) a.id
          (List.mem_cons_self _ _)⟩
      · rcases ih (b.id :: seen) a ha2 with ⟨h1, h2, h3⟩
        exact ⟨fun hs => h1 (List.mem_cons_of_mem _ hs), h2, h3⟩

theorem dedupeAlbumsAux_nodup (l : List Album) (seen : List String) :
    ((dedupeAlbumsAux seen l).1.map (fun a => a.id)).Nodup := by
  induction l generalizing seen with
  | nil => simp [dedupeAlbumsAux]
  | cons b l ih =>
    by_cases hb : b.id = "" ∨ b.id ∈ seen
    · rw [dedupeAlbumsAux, if_pos hb]
      exact ih seen
    · rw [dedupeAlbumsAux, if_neg hb]
      rw [List.map_cons, List.nodup_cons]
      refine ⟨?_, ih (b.id :: seen)⟩
      intro hmem
      rcases List.mem_map.mp hmem with ⟨a, ha, haid⟩
      rcases dedupeAlbumsAux_mem l (b.id :: seen) a ha with ⟨h1, _, _⟩
      exact h1 (haid ▸ List.mem_cons_self _ _)

theorem dedupeSongsAux_mem (l : List SongWithAlbumInfo) (seen : List String) :
    ∀ s ∈ dedupeSongsAux seen l, songKey s ∉ seen := by
  induction l generalizing seen with
  | nil => intro s hs; exact absurd hs (List.not_mem_nil s)
  | cons b l ih =>
    intro s hs
    by_cases hb : songKey b ∈ seen
    · rw [dedupeSongsAux, if_pos hb] at hs
      exact ih seen s hs
    · rw [dedupeSongsAux, if_neg hb] at hs
      rcases List.mem_cons.mp hs with rfl | hs2
      · exact hb
      · exact fun hmem =>
          ih (songKey b :: seen) s hs2 (List.mem_cons_of_mem _ hmem)

theorem dedupeSongsAux_nodup (l : List SongWithAlbumInfo) (seen : List String) :
    ((dedupeSongsAux seen l).map songKey).Nodup := by
  induction l generalizing seen with
  | nil => simp [dedupeSongsAux]
  | cons b l ih =>
    by_cases hb : songKey b ∈ seen
    · rw [dedupeSongsAux, if_pos hb]
      exact ih seen
    · rw [dedupeSongsAux, if_neg hb]
      rw [List.map_cons, List.nodup_cons]
      refine ⟨?_, ih (songKey b :: seen)⟩
      intro hmem
      rcases List.mem_map.mp hmem with ⟨s, hs, hkey⟩
      exact dedupeSongsAux_mem l (songKey b :: seen) s hs
        (hkey ▸ List.mem_cons_self _ _)

/-- The album-id disjointness of two dedup stages: any stage whose starting
`seen` set contains the final `seen` set of an earlier stage produces albums
disjoint from that earlier stage's output. -/
theorem dedupeAlbumsAux_disjoint (l1 l2 : List Album) (s1 s2 : List String)
    (hsub : ∀ x ∈ (dedupeAlbumsAux s1 l1).2, x ∈ s2) :
    ∀ i ∈ (dedupeAlbumsAux s1 l1).1.map (fun a => a.id),
      i ∉ (dedupeAlbumsAux s2 l2).1.map (fun a => a.id) := by
  intro i hi hmem
  rcases List.mem_map.mp hi with ⟨a, ha, haid⟩
  rcases List.mem_map.mp hmem with ⟨b, hb, hbid⟩
  rcases dedupeAlbumsAux_mem l1 s1 a ha with ⟨_, _, h3⟩
  rcases dedupeAlbumsAux_mem l2 s2 b hb with ⟨h1, _, _⟩
  exact h1 (hbid ▸ haid ▸ hsub a.id h3)

/-- The album ids of a recommendation list. -/
def albumIdsOf (l : List Album) : List String := l.map (fun a => a.id)

/-- The four album-bearing category lists of a result, in dedup order; the
optional listened-albums list contributes only when present. -/
def categoryLists (r : RecommendationResult) : List (List Album) :=
  [r.basedOnArtists, r.basedOnGenres, r.favoriteAlbums] ++
    r.basedOnListenedAlbums.toList

/-- The cross-category deduplication invariant of the spec: the four album
lists are pairwise disjoint on album ids, and no lowercased-trimmed song
title occurs twice in the song list. -/
def dedupInvariant (r : RecommendationResult) : Prop :=
  (categoryLists r).Pairwise (fun l1 l2 => ∀ i ∈ albumIdsOf l1, i ∉ albumIdsOf l2) ∧
  (r.similarToLikedSongs.map songKey).Nodup

theorem removeDuplicates_dedupInvariant (r : RecommendationResult) :
    dedupInvariant (removeDuplicates r) := by
  refine ⟨?_, dedupeSongsAux_nodup r.similarToLikedSongs []⟩
  have sub0 : ∀ x ∈ (dedupeAlbumsAux [] r.basedOnArtists).2,
      x ∈ (dedupeAlbumsAux [] r.basedOnArtists).2 := fun _ hx => hx
  have sub12 := dedupeAlbumsAux_seen_sub r.basedOnGenres
    (dedupeAlbumsAux [] r.basedOnArtists).2
  have sub23 := dedupeAlbumsAux_seen_sub r.favoriteAlbums
    (dedupeAlbumsAux (dedupeAlbumsAux [] r.basedOnArtists).2 r.basedOnGenres).2
  have sub13 : ∀ x ∈ (dedupeAlbumsAux [] r.basedOnArtists).2,
      x ∈ (dedupeAlbumsAux
        (dedupeAlbumsAux (dedupeAlbumsAux [] r.basedOnArtists).2 r.basedOnGenres).2
        r.favoriteAlbums).2 := fun x hx => sub23 x (sub12 x hx)
  cases hopt : r.basedOnListenedAlbums with
  | none =>
    have hcl : categoryLists (removeDuplicates r) =
        [(dedupeAlbumsAux [] r.basedOnArtists).1,
         (dedupeAlbumsAux (dedupeAlbumsAux [] r.basedOnArtists).2 r.basedOnGenres).1,
         (dedupeAlbumsAux
           (dedupeAlbumsAux (dedupeAlbumsAux [] r.basedOnArtists).2 r.basedOnGenres).2
           r.favoriteAlbums).1] ++ (r.basedOnListenedAlbums.map
             (fun l => (dedupeAlbumsAux
               (dedupeAlbumsAux
                 (dedupeAlbumsAux (dedupeAlbumsAux [] r.basedOnArtists).2
                   r.basedOnGenres).2 r.favoriteAlbums).2 l).1)).toList := rfl
    rw [hcl, hopt]
    refine List.pairwise_cons.mpr ⟨?_, List.pairwise_cons.mpr ⟨?_, ?_⟩⟩
    · intro l hl
      rcases List.mem_cons.mp hl with rfl | hl2
      · exact dedupeAlbumsAux_disjoint _ _ _ _ sub0
      · rcases List.mem_cons.mp hl2 with rfl | hl3
        · exact dedupeAlbumsAux_disjoint _ _ _ _ sub12
        · simp at hl3
    · intro l hl
      rcases List.mem_cons.mp hl with rfl | hl2
      · exact dedupeAlbumsAux_disjoint _ _ _ _ (fun _ hx => hx)
      · simp at hl2
    · simp
  | some l4 =>
    have hcl : categoryLists (removeDuplicates r) =
        [(dedupeAlbumsAux [] r.basedOnArtists).1,
         (dedupeAlbumsAux (dedupeAlbumsAux [] r.basedOnArtists).2 r.basedOnGenres).1,
         (dedupeAlbumsAux
           (dedupeAlbumsAux (dedupeAlbumsAux [] r.basedOnArtists).2 r.basedOnGenres).2
           r.favoriteAlbums).1] ++ (r.basedOnListenedAlbums.map
             (fun l => (dedupeAlbumsAux
               (dedupeAlbumsAux
                 (dedupeAlbumsAux (dedupeAlbumsAux [] r.basedOnArtists).2
                   r.basedOnGenres).2 r.favoriteAlbums).2 l).1)).toList := rfl
    rw [hcl, hopt]
    have sub34 : ∀ x ∈ (dedupeAlbumsAux
        (dedupeAlbumsAux (dedupeAlbumsAux [] r.basedOnArtists).2 r.basedOnGenres).2
        r.favoriteAlbums).2, x ∈ (dedupeAlbumsAux
        (dedupeAlbumsAux (dedupeAlbumsAux [] r.basedOnArtists).2 r.basedOnGenres).2
        r.favoriteAlbums).2 := fun _ hx => hx
    refine List.pairwise_cons.mpr ⟨?_, List.pairwise_cons.mpr ⟨?_,
      List.pairwise_cons.mpr ⟨?_, ?_⟩⟩⟩
    · intro l hl
      rcases List.mem_cons.mp hl with rfl | hl2
      · exact dedupeAlbumsAux_disjoint _ _ _ _ sub0
      · rcases List.mem_cons.mp hl2 with rfl | hl3
        · exact dedupeAlbumsAux_disjoint _ _ _ _ sub12
        · rcases List.mem_cons.mp hl3 with rfl | hl4
          · exact dedupeAlbumsAux_disjoint _ _ _ _ sub13
          · simp at hl4
    · intro l hl
      rcases List.mem_cons.mp hl with rfl | hl2
      · exact dedupeAlbumsAux_disjoint _ _ _ _ (fun _ hx => hx)
      · rcases List.mem_cons.mp hl2 with rfl | hl3
        · exact dedupeAlbumsAux_disjoint _ _ _ _ sub23
        · simp at hl3
    · intro l hl
      rcases List.mem_cons.mp hl with rfl | hl2
      · exact dedupeAlbumsAux_disjoint _ _ _ _ sub34
      · simp at hl2
    · simp

end Reco

/-! ## Concrete fixtures shared by witnesses -/

/-- A catalog album whose title carries a strippable prefix. -/
def albumA1 : Album :=
  { id := "a1", title := "T - One", artist := ["X"], genre := ["ROCK"],
    lang := "fr", cover := "http://c/1.jpg", songs := [{ title := "s1", file := "f1" }] }

/-- A second catalog album by the same artist. -/
def albumA2 : Album :=
  { id := "a2", title := "Two", artist := ["X"], genre := ["ROCK"],
    lang := "fr", cover := "http://c/2.jpg", songs := [{ title := "s2", file := "f2" }] }

/-- A user who has listened to `albumA1` and its song. -/
def userW : Reco.User :=
  { listenedSongs := [{ songTitle := "s1", songFile := "f1", albumId := "a1",
                        playCount := 3, listenHistory := [0] }],
    listenedAlbums := [{ albumId := "a1", playCount := 3, listenHistory := [0] }] }

/-- A user with listened songs but no listened albums. -/
def userS : Reco.User :=
  { listenedSongs := [{ songTitle := "s1", songFile := "f1", albumId := "a1",
                        playCount := 3, listenHistory := [0] }],
    listenedAlbums := [] }

/-- A deterministic environment over the two-album catalog. -/
def envW : Reco.Env :=
  { catalog := [albumA1, albumA2], allUsers := [userW],
    favoriteAlbumIds := ["a1"], now := 0, cdnUrl := "http://cdn",
    randArtist := fun _ => 1/2, randGenre := fun _ => 1/2,
    randListened := fun _ => 1/2, sample15 := fun l => l,
    reorderSongs := fun l => l }

/-- The recommendation set `envW`/`userW` produces. -/
def c1Result : Reco.RecommendationResult :=
  { basedOnArtists := [{ albumA1 with title := "One" }, albumA2],
    basedOnGenres := [],
    favoriteAlbums := [],
    similarToLikedSongs := [{ title := "s1", file := "f1", albumTitle := "One",
                              albumArtist := ["X"], albumCover := "http://c/1.jpg",
                              albumLang := "fr", albumId := "a1" }],
    basedOnListenedAlbums := some [] }

/-! ## Claim C1 -/

/-- C1: for every `RecommendationResult` returned by
`generateRecommendations`, no album id appears in more than one of the four
album lists (pairwise disjointness over `basedOnArtists`, `basedOnGenres`,
`favoriteAlbums` and `basedOnListenedAlbums` when present), and no
lowercased-and-trimmed song title appears twice in `similarToLikedSongs`. -/
theorem c1_dedup_invariant (env : Reco.Env) (userLookup : Option Reco.User)
    (w : Reco.WeightsUpdate) (r : Reco.RecommendationResult)
    (h : Reco.generateRecommendations env userLookup w = .ok r) :
    Reco.dedupInvariant r := by
  cases userLookup with
  | none => simp [Reco.generateRecommendations] at h
  | some user =>
    rw [Reco.generateRecommendations] at h
    split at h
    · exact absurd h (by simp)
    · simp only [Except.ok.injEq] at h
      exact h ▸ Reco.removeDuplicates_dedupInvariant _

/-- Witness for C1 at a concrete environment and user. -/
theorem c1_dedup_invariant_witness :
    Reco.generateRecommendations envW (some userW) {} = .ok c1Result ∧
    Reco.dedupInvariant c1Result :=
  ⟨by with_unfolding_all rfl,
   c1_dedup_invariant envW (some userW) {} c1Result (by with_unfolding_all rfl)⟩

/-! ## Claim C3 -/

/-- C3: a user that exists but has zero listened songs and zero listened
albums makes `generateRecommendations` throw the no-listening-history error
(no result is returned), which the controller maps to HTTP 404 (`NotFound`). -/
theorem c3_empty_history_not_found (env : Reco.Env) (w : Reco.WeightsUpdate)
    (user : Reco.User) (hs : user.listenedSongs = [])
    (ha : user.listenedAlbums = []) :
    Reco.generateRecommendations env (some user) w = .error .noListeningHistory ∧
    Reco.recErrorStatus .noListeningHistory = 404 := by
  constructor
  · rw [Reco.generateRecommendations]
    rw [if_pos (by simp [ha, hs])]
  · decide

/-- Witness for C3. -/
theorem c3_empty_history_not_found_witness :
    Reco.generateRecommendations envW
      (some { listenedSongs := [], listenedAlbums := [] }) {} =
        .error .noListeningHistory ∧
    Reco.recErrorStatus .noListeningHistory = 404 :=
  c3_empty_history_not_found envW {} { listenedSongs := [], listenedAlbums := [] }
    rfl rfl

/-! ## Claim C10 -/

/-- C10: for a user whose listening history is nonempty but whose
listened-albums list is empty, `generateRecommendations` succeeds and the
returned `basedOnListenedAlbums` field is absent (`undefined` in the source,
`none` here), not an empty list. -/
theorem c10_absent_listened_albums (env : Reco.Env) (w : Reco.WeightsUpdate)
    (user : Reco.User) (ha : user.listenedAlbums = [])
    (hs : user.listenedSongs ≠ []) :
    (Reco.generateRecommendations env (some user) w).map
      (fun r => r.basedOnListenedAlbums) = .ok none := by
  rw [Reco.generateRecommendations]
  rw [if_neg (by simp [ha, hs])]
  simp [Reco.removeDuplicates, Reco.getListenedAlbumsRecommendations,
    Reco.applyRecencyWeighting, ha, Except.map]

/-- Witness for C10. -/
theorem c10_absent_listened_albums_witness :
    (Reco.generateRecommendations envW (some userS) {}).map
      (fun r => r.basedOnListenedAlbums) = .ok none :=
  c10_absent_listened_albums envW {} userS rfl (by decide)

/-! ## Claim C2 -/

/-- A catalog album by artist `x` for the C2 counterexample. -/
def c2Album : Album :=
  { id := "x1", title := "X", artist := ["x"], genre := [], lang := "fr",
    cover := "http://c", songs := [] }

/-- Sixteen catalog copies, enough for a negative JS `slice` end index to
leave a nonempty tail. -/
def c2Catalog : List Album := List.replicate 16 c2Album

/-- Counterexample to C2 as stated: with category weight `-1` the artist-based
category must, per the claim, return at most `floor(15 * (-1)) = -15` entries;
the code computes `maxSize = min(15, -15) = -15` and JS
`slice(0, -15)` on the 16 scored candidates keeps 1 entry, and `1 ≤ -15` is
false. -/
theorem c2_cap_counterexample :
    ((Reco.getArtistBasedRecommendations c2Catalog [] (fun _ => 0) "http://cdn"
        ["x"] (-1) 0).length : Int) = 1 ∧
    ¬ ((1 : Int) ≤ jsFloor (15 * (-1 : ℚ))) := by
  constructor
  · with_unfolding_all rfl
  · have h : jsFloor (15 * (-1 : ℚ)) = -15 := by with_unfolding_all rfl
    rw [h]
    decide

/-- C2 (amended): for every nonnegative category weight, each per-signal
category returns at most `floor(baseCount * categoryWeight)` entries
(base 15 artist-based, 6 genre-based, 8 listened-album-based, 6 song-based);
the three album categories apply the cap after sorting candidates by score
descending (final conjunct: the capped selection is pairwise
score-descending), while the song category caps after its random shuffle.
For negative weights the bound fails (see the counterexample): JS
`slice(0, negative)` keeps a tail of the array. -/
theorem c2_caps_amended (catalog : List Album) (allUsers : List Reco.User)
    (rand : Nat → ℚ) (cdnUrl : String) (artists genres : List String)
    (user : Reco.User)
    (reorder : List SongWithAlbumInfo → List SongWithAlbumInfo)
    (songs : List (String × Option Album)) (w pw : ℚ) (hw : 0 ≤ w) :
    (((Reco.getArtistBasedRecommendations catalog allUsers rand cdnUrl artists
        w pw).length : Int) ≤ jsFloor (15 * w) ∧
     ((Reco.getGenreBasedRecommendations catalog allUsers rand cdnUrl genres
        w pw).length : Int) ≤ jsFloor (6 * w) ∧
     (∀ l, Reco.getListenedAlbumsRecommendations catalog allUsers rand cdnUrl
        user w pw = some l → ((l.length : Int) ≤ jsFloor (8 * w))) ∧
     ((Reco.getSongBasedRecommendations catalog reorder cdnUrl songs
        w).length : Int) ≤ jsFloor (6 * w)) ∧
    (∀ (scored : List (Album × ℚ)) (m : Int),
      (jsSlice0 (jsSortBy (fun a b => b.2 ≤ a.2) scored) m).Pairwise
        (fun a b => b.2 ≤ a.2)) := by
  have h15 : (0 : Int) ≤ jsFloor (15 * w) :=
    Int.floor_nonneg.mpr (mul_nonneg (by norm_num) hw)
  have h8 : (0 : Int) ≤ jsFloor (8 * w) :=
    Int.floor_nonneg.mpr (mul_nonneg (by norm_num) hw)
  have h6 : (0 : Int) ≤ jsFloor (6 * w) :=
    Int.floor_nonneg.mpr (mul_nonneg (by norm_num) hw)
  have hrank : ∀ (scored : List (Album × ℚ)) (base : Int) (fl : Int),
      0 ≤ base → 0 ≤ fl →
      ((Reco.rankByScore scored (min base fl)).length : Int) ≤ fl := by
    intro scored base fl hbase hfl
    calc ((Reco.rankByScore scored (min base fl)).length : Int) ≤ min base fl := by
          unfold Reco.rankByScore
          rw [List.length_map]
          exact jsSlice0_length_le _ _ (le_min hbase hfl)
      _ ≤ fl := min_le_right _ _
  refine ⟨⟨?_, ?_, ?_, ?_⟩, ?_⟩
  · rw [Reco.getArtistBasedRecommendations]
    split
    · simpa using h15
    · simp only [List.length_map]
      exact hrank _ 15 _ (by norm_num) h15
  · rw [Reco.getGenreBasedRecommendations]
    split
    · simpa using h6
    · simp only [List.length_map]
      exact hrank _ 6 _ (by norm_num) h6
  · intro l h
    rw [Reco.getListenedAlbumsRecommendations] at h
    split at h
    · simp at h
    · simp only [Option.some.injEq] at h
      subst h
      simp only [List.length_map]
      exact hrank _ 8 _ (by norm_num) h8
  · rw [Reco.getSongBasedRecommendations]
    split
    · simpa using h6
    · simp only [List.length_map]
      exact jsSlice0_length_le _ _ h6
  · intro scored m
    have htot : ∀ (a b : Album × ℚ),
        (fun (a b : Album × ℚ) => decide (b.2 ≤ a.2)) a b = false →
        (fun (a b : Album × ℚ) => decide (b.2 ≤ a.2)) b a = true := by
      intro a b h
      simp only [decide_eq_false_iff_not] at h
      simp only [decide_eq_true_eq]
      exact le_of_not_le h
    have htrans : ∀ (a b c : Album × ℚ),
        (fun (a b : Album × ℚ) => decide (b.2 ≤ a.2)) a b = true →
        (fun (a b : Album × ℚ) => decide (b.2 ≤ a.2)) b c = true →
        (fun (a b : Album × ℚ) => decide (b.2 ≤ a.2)) a c = true := by
      intro a b c h1 h2
      simp only [decide_eq_true_eq] at h1 h2 ⊢
      exact le_trans h2 h1
    have hp := jsSortBy_pairwise _ htot htrans scored
    have hp2 : (jsSortBy (fun (a b : Album × ℚ) => b.2 ≤ a.2) scored).Pairwise
        (fun a b => b.2 ≤ a.2) := hp.imp (fun h => by simpa using h)
    unfold jsSlice0
    split
    · exact List.Pairwise.sublist (List.take_sublist _ _) hp2
    · exact List.Pairwise.sublist (List.take_sublist _ _) hp2

/-- Witness for C2 (amended) at weight 1. -/
theorem c2_caps_amended_witness :
    ((Reco.getArtistBasedRecommendations [albumA1, albumA2] [userW]
        (fun _ => 1/2) "http://cdn" ["X"] 1 0).length : Int) ≤
      jsFloor (15 * (1 : ℚ)) :=
  ((c2_caps_amended [albumA1, albumA2] [userW] (fun _ => 1/2) "http://cdn"
      ["X"] [] userW (fun l => l) [] 1 0 (by norm_num)).1).1

/-! ## Claim C7 -/

/-- Modelled from the spec (section 4.1), for comparison with the code: the
spec's recency step function, whose last step applies `0.1` also to an entry
with no listen history at all. -/
def specRecencyFactor (now : Int) (hist : List Int) : ℚ :=
  match hist with
  | [] => 0.1
  | h :: t =>
    let timeDiff := now - Reco.listMax (h :: t)
    if timeDiff < 7 * 24 * 60 * 60 * 1000 then 1.0
    else if timeDiff < 30 * 24 * 60 * 60 * 1000 then 0.6
    else if timeDiff < 90 * 24 * 60 * 60 * 1000 then 0.3
    else 0.1

/-- Modelled from the spec (section 4.1): the claimed effective play count
`ceil(rawCount * recencyFactor * w)`. -/
def specEffectivePlayCount (now : Int) (w : ℚ) (raw : Int) (hist : List Int) : Int :=
  jsCeil ((raw : ℚ) * specRecencyFactor now hist * w)

/-- Counterexample to C7 as stated: an entry with `playCount = 10` and no
listen history keeps its raw play count 10 (the source only rewrites
`playCount` under the nonempty-history guard), while the claimed formula
yields `ceil(10 * 0.1 * 1.5) = 2`. -/
theorem c7_recency_counterexample :
    (Reco.weightAlbumEntry 0 (3/2)
      { albumId := "a", playCount := 10, listenHistory := [] }).playCount = 10 ∧
    specEffectivePlayCount 0 (3/2) 10 [] = 2 ∧ (10 : Int) ≠ 2 := by
  refine ⟨rfl, ?_, by decide⟩
  with_unfolding_all rfl

/-- C7 (amended): for an entry with at least one listen event, the
recency-weighted effective play count equals
`ceil(rawCount * recencyFactor * w)` with the spec's step function; an entry
with no listen history keeps its raw play count unchanged (the `0.1` step is
never applied to it). -/
theorem c7_recency_amended (now : Int) (w : ℚ) (a : Reco.ListenedAlbumStats)
    (s : Reco.ListenedSongStats) :
    (a.listenHistory ≠ [] →
      (Reco.weightAlbumEntry now w a).playCount =
        specEffectivePlayCount now w a.playCount a.listenHistory) ∧
    (a.listenHistory = [] →
      (Reco.weightAlbumEntry now w a).playCount = a.playCount) ∧
    (s.listenHistory ≠ [] →
      (Reco.weightSongEntry now w s).playCount =
        specEffectivePlayCount now w s.playCount s.listenHistory) ∧
    (s.listenHistory = [] →
      (Reco.weightSongEntry now w s).playCount = s.playCount) := by
  obtain ⟨aid, apc, ahist⟩ := a
  obtain ⟨st, sf, sid, spc, shist⟩ := s
  refine ⟨?_, ?_, ?_, ?_⟩
  · cases ahist with
    | nil => intro h; exact absurd rfl h
    | cons h t => intro _; rfl
  · cases ahist with
    | nil => intro _; rfl
    | cons h t => intro hc; exact absurd hc (by simp)
  · cases shist with
    | nil => intro h; exact absurd rfl h
    | cons h t => intro _; rfl
  · cases shist with
    | nil => intro _; rfl
    | cons h t => intro hc; exact absurd hc (by simp)

/-- Witness for C7 (amended). -/
theorem c7_recency_amended_witness :
    (Reco.weightAlbumEntry 0 1
      { albumId := "a", playCount := 10, listenHistory := [0] }).playCount =
      specEffectivePlayCount 0 1 10 [0] ∧
    (Reco.weightAlbumEntry 0 1
      { albumId := "a", playCount := 7, listenHistory := [] }).playCount = 7 :=
  ⟨(c7_recency_amended 0 1 ⟨"a", 10, [0]⟩ ⟨"t", "f", "a", 1, []⟩).1 (by decide),
   (c7_recency_amended 0 1 ⟨"a", 7, []⟩ ⟨"t", "f", "a", 1, []⟩).2.1 rfl⟩

/-! ## Claim C8 -/

/-- Counterexample to C8 as stated: a result whose `favoriteAlbums` list
shares its only album with `basedOnArtists`.  The dedup pass empties
`favoriteAlbums` (the id was seen in the artists list first) even though the
pre-dedup list was nonempty — there is no first-3 fallback in
`removeDuplicates`. -/
theorem c8_fallback_counterexample :
    (Reco.removeDuplicates
      { basedOnArtists := [albumA1], basedOnGenres := [],
        favoriteAlbums := [albumA1], similarToLikedSongs := [],
        basedOnListenedAlbums := none }).favoriteAlbums = [] ∧
    ([albumA1] : List Album) ≠ [] ∧ ([albumA1] : List Album).take 3 ≠ [] :=
  ⟨rfl, by decide, by decide⟩

/-- C8 (amended): the first-3 fallback belongs to the already-listened
filtering step (`filterAlreadyListened`), not to the dedup pass: when
filtering a nonempty favorite-albums candidate list removes every entry, the
first 3 unfiltered entries are returned (in particular a nonempty list);
`removeDuplicates` has no such fallback and can return an empty
`favoriteAlbums` (see the counterexample). -/
theorem c8_fallback_amended (recs : List Album) (user : Reco.User)
    (hne : recs ≠ [])
    (hemp : recs.filter (fun a =>
      !(user.listenedAlbums.map (fun la => la.albumId)).contains a.id) = []) :
    Reco.filterAlreadyListened recs user = recs.take 3 ∧
    Reco.filterAlreadyListened recs user ≠ [] := by
  have hfe : recs.isEmpty = false := by
    cases recs with
    | nil => exact absurd rfl hne
    | cons x rest => rfl
  have hmain : Reco.filterAlreadyListened recs user = recs.take 3 := by
    rw [Reco.filterAlreadyListened, if_neg (by rw [hfe]; exact Bool.false_ne_true)]
    rw [if_pos (by rw [hemp, hfe]; rfl)]
  refine ⟨hmain, ?_⟩
  rw [hmain]
  cases recs with
  | nil => exact absurd rfl hne
  | cons x rest => simp

/-- Witness for C8 (amended): the user has listened to the only candidate. -/
theorem c8_fallback_amended_witness :
    Reco.filterAlreadyListened [albumA1] userW = ([albumA1] : List Album).take 3 ∧
    Reco.filterAlreadyListened [albumA1] userW ≠ [] :=
  c8_fallback_amended [albumA1] userW (by decide) (by decide)

/-! ## Claim C9 -/

/-- Counterexample to C9 as stated: the title transform is not idempotent —
`"a - b - c"` formats to `"b - c"`, which still matches the
`/^[^-]+ - /` prefix pattern and loses another segment on a second
application. -/
theorem c9_idempotence_counterexample :
    formatTitle (formatTitle "a - b - c") ≠ formatTitle "a - b - c" := by
  decide

/-- C9 (amended): the diacritic-stripping component of the transform is
idempotent, and the full transform is idempotent exactly on the inputs whose
once-transformed value is unchanged by another prefix strip and another trim;
in general a second application can strip a further `"<anything> - "` prefix
(see the counterexample). -/
theorem c9_idempotence_amended (s : String)
    (h1 : stripTitleHead (formatTitle s).toList = (formatTitle s).toList)
    (h2 : trimChars (formatTitle s).toList = (formatTitle s).toList) :
    formatTitle (formatTitle s) = formatTitle s := by
  show String.mk (nfdStrip (trimChars (stripTitleHead (formatTitle s).toList))) =
    formatTitle s
  rw [h1, h2]
  have h3 : (formatTitle s).toList = nfdStrip (trimChars (stripTitleHead s.toList)) :=
    rfl
  rw [h3, nfdStrip_idem]
  rfl

/-- Witness for C9 (amended). -/
theorem c9_idempotence_amended_witness :
    formatTitle (formatTitle "Tape - Décollage") = formatTitle "Tape - Décollage" :=
  c9_idempotence_amended "Tape - Décollage" (by decide) (by decide)

/-! ## Claim C4 -/

/-- The single album of the C4/C5 scenario, by artist `Z`. -/
def c4Album : Album :=
  { id := "c", title := "Album C", artist := ["Z"], genre := [], lang := "fr",
    cover := "http://x", songs := [] }

/-- The only listener of `c4Album`, with 5 plays. -/
def c4User : Wrapped.User :=
  { listenedSongs := [],
    listenedAlbums := [{ albumId := "c", playCount := 5, listenHistory := [] }] }

/-- Counterexample to C4 as stated: in the single-listener scenario the
`topPerformances` entry for `Z` displays `0.1`, not a value `≥ 99.9` — the
source pins `bestPercentile = 0` to `MIN_TOP_PERCENT` instead of evaluating
`max(0.1, 100 - 0) = 100`. -/
theorem c4_top_performance_counterexample :
    (Wrapped.wrappedStats 2026 "" [c4Album] [c4User] c4User).topPerformances =
      [{ artistName := "Z", topPercentShown := 1/10, totalListens := 5 }] ∧
    ¬ ((999/10 : ℚ) ≤ 1/10) := by
  constructor
  · with_unfolding_all rfl
  · norm_num

/-- The `topPerformances` component of the wrapped payload only depends on
the percentile aggregation (over the catalog restricted to the user's
listened albums), not on the yearly filters. -/
theorem wrappedStats_topPerformances (y : Int) (cdn : String)
    (catalog : List Album) (allUsers : List Wrapped.User)
    (user : Wrapped.User) :
    (Wrapped.wrappedStats y cdn catalog allUsers user).topPerformances =
      Wrapped.topPerformances (Wrapped.aggregateArtistStats
        (Wrapped.calculateListeningPercentiles user
          (catalog.filter (fun a =>
            user.listenedAlbums.any (fun la => la.albumId = a.id)))
          allUsers)) := rfl

/-- An album by artist `Z` with arbitrary display fields, for the
single-listener scenario at any catalog contents. -/
def c4AlbumOf (title lang cover : String) : Album :=
  { id := "c", title := title, artist := ["Z"], genre := [], lang := lang,
    cover := cover, songs := [] }

/-- A user whose only listened album is `"c"`, with arbitrary play count and
listen history. -/
def c4UserOf (n : Int) (hist : List Wrapped.DateTime) : Wrapped.User :=
  { listenedSongs := [],
    listenedAlbums := [{ albumId := "c", playCount := n, listenHistory := hist }] }

/-- The single-listener percentile row of the scenario. -/
def c4PercRow (n : Int) : Wrapped.PercentileResult :=
  { albumId := "c", artist := ["Z"], percentile := 0,
    topPercent := Wrapped.MIN_TOP_PERCENT, totalListens := n }

/-- C4 (amended): whenever a user is the only listener of an album by artist
`Z` (any play count, any listen history), the wrapped `topPerformances`
output contains exactly the entry for `Z`, and its displayed top-percent
value is `MIN_TOP_PERCENT = 0.1`, not 100. -/
theorem c4_top_performance_amended (n : Int) (hist : List Wrapped.DateTime)
    (y : Int) (cdn title lang cover : String) :
    (Wrapped.wrappedStats y cdn [c4AlbumOf title lang cover]
      [c4UserOf n hist] (c4UserOf n hist)).topPerformances =
      [{ artistName := "Z", topPercentShown := Wrapped.MIN_TOP_PERCENT,
         totalListens := n }] := by
  rw [wrappedStats_topPerformances]
  have hmap : ([c4AlbumOf title lang cover] : List Album).filter
      (fun a => (c4UserOf n hist).listenedAlbums.any
        (fun la => la.albumId = a.id)) = [c4AlbumOf title lang cover] := by
    simp [c4UserOf, c4AlbumOf]
  rw [hmap]
  have hperc : Wrapped.calculateListeningPercentiles (c4UserOf n hist)
      [c4AlbumOf title lang cover] [c4UserOf n hist] = [c4PercRow n] := by
    unfold Wrapped.calculateListeningPercentiles Wrapped.percentileFor
      Wrapped.albumPlayCounts findAlbum c4UserOf c4AlbumOf c4PercRow
    simp
  rw [hperc]
  have hagg : Wrapped.aggregateArtistStats [c4PercRow n] =
      [{ artistName := "Z", totalListens := n, bestPercentile := 0,
         albumIds := ["c"] }] := by
    unfold Wrapped.aggregateArtistStats Wrapped.updateArtist c4PercRow
    norm_num [min_def]
  rw [hagg]
  unfold Wrapped.topPerformances
  norm_num [Wrapped.TOP_PERFORMANCE_PERCENTILE_THRESHOLD, jsSortBy, insertOrdered]

/-! ## Claim C5 -/

theorem percentileFor_albumId (m : List Album) (us : List Wrapped.User)
    (id : String) (pc : Int) : (Wrapped.percentileFor m us id pc).albumId = id := by
  simp only [Wrapped.percentileFor]
  split <;> rfl

/-- C5: every `PercentileResult` computed for an album whose population
play-count distribution has at most one entry (the requesting user is the
only listener) has `percentile = 0`. -/
theorem c5_single_listener_percentile_zero (user : Wrapped.User)
    (albumMap : List Album) (allUsers : List Wrapped.User)
    (r : Wrapped.PercentileResult)
    (hr : r ∈ Wrapped.calculateListeningPercentiles user albumMap allUsers)
    (hlen : (Wrapped.albumPlayCounts allUsers r.albumId).length ≤ 1) :
    r.percentile = 0 := by
  unfold Wrapped.calculateListeningPercentiles at hr
  rcases List.mem_map.mp hr with ⟨a, _, rfl⟩
  rw [percentileFor_albumId] at hlen
  simp only [Wrapped.percentileFor]
  split
  · rfl
  · rename_i hcond
    exact absurd hlen hcond

/-- Witness for C5 at the single-listener scenario. -/
theorem c5_single_listener_percentile_zero_witness :
    (⟨"c", ["Z"], 0, 1/10, 5⟩ : Wrapped.PercentileResult).percentile = 0 :=
  c5_single_listener_percentile_zero c4User [c4Album] [c4User]
    ⟨"c", ["Z"], 0, 1/10, 5⟩
    (by rw [show Wrapped.calculateListeningPercentiles c4User [c4Album] [c4User] =
        [⟨"c", ["Z"], 0, 1/10, 5⟩] from by with_unfolding_all rfl]
        exact List.mem_singleton_self _)
    (by decide)

/-! ## Claim C6 -/

namespace Wrapped

/-- Erases every listen timestamp of a user (play counts kept). -/
def eraseHistory (u : User) : User :=
  { listenedSongs := u.listenedSongs.map (fun s => { s with listenHistory := [] }),
    listenedAlbums := u.listenedAlbums.map (fun a => { a with listenHistory := [] }) }

theorem albumPlayCounts_eraseHistory (allUsers : List User) (id : String) :
    albumPlayCounts (allUsers.map eraseHistory) id = albumPlayCounts allUsers id := by
  induction allUsers with
  | nil => rfl
  | cons u us ih =>
    unfold albumPlayCounts at ih ⊢
    simp only [List.map_cons, List.flatten_cons, List.filterMap_append]
    rw [ih]
    congr 1
    rw [show (eraseHistory u).listenedAlbums =
        u.listenedAlbums.map (fun a => { a with listenHistory := [] }) from rfl]
    rw [List.filterMap_map]
    rfl

/-- The wrapped computation restricted to the song entries that have at least
one listen event in year `y`. -/
def restrictSongsToYear (y : Int) (u : User) : User :=
  { u with
    listenedSongs := u.listenedSongs.filter fun s => hasEventInYear y s.listenHistory }

end Wrapped

/-- A song entry with one in-year (2026, 3 a.m.) and one out-of-year
(2025, 7 a.m.) listen event. -/
def c6Song : Wrapped.ListenedSongStats :=
  { songTitle := "sng", songFile := "f", albumId := "c", playCount := 2,
    listenHistory := [⟨2026, 1, 3⟩, ⟨2025, 100, 7⟩] }

/-- The same entry with the out-of-year event removed. -/
def c6SongOnlyYear : Wrapped.ListenedSongStats :=
  { songTitle := "sng", songFile := "f", albumId := "c", playCount := 2,
    listenHistory := [⟨2026, 1, 3⟩] }

/-- A user holding `c6Song`. -/
def c6User : Wrapped.User :=
  { listenedSongs := [c6Song],
    listenedAlbums := [{ albumId := "c", playCount := 5, listenHistory := [] }] }

/-- The same user with the out-of-year event removed. -/
def c6UserOnlyYear : Wrapped.User :=
  { listenedSongs := [c6SongOnlyYear],
    listenedAlbums := [{ albumId := "c", playCount := 5, listenHistory := [] }] }

/-- Counterexample to C6 as stated: the two users differ only by one listen
event dated in the previous calendar year (a 7 a.m. morning listen of 2025),
yet the wrapped result differs — the out-of-year event is bucketed into
`listeningTimes.morning`.  Listen events outside the current year therefore
do contribute to wrapped counts. -/
theorem c6_year_filter_counterexample :
    (Wrapped.wrappedStats 2026 "" [c4Album] [c6User] c6User).listeningTimes.morning
      = 1 ∧
    (Wrapped.wrappedStats 2026 "" [c4Album] [c6UserOnlyYear]
      c6UserOnlyYear).listeningTimes.morning = 0 := by
  constructor
  · with_unfolding_all rfl
  · with_unfolding_all rfl

/-- C6 (amended): the wrapped computation filters whole entries, not events —
a listened-song entry with no event in the current year contributes to no
statistic (first conjunct: dropping all such entries changes nothing), but an
entry with at least one in-year event contributes its all-time play count and
all its timestamps (counterexample), and the percentile computation ignores
listen history entirely (second conjunct: erasing every timestamp changes no
percentile). -/
theorem c6_year_filter_amended :
    (∀ (y : Int) (cdn : String) (catalog : List Album)
        (allUsers : List Wrapped.User) (user : Wrapped.User),
      Wrapped.wrappedStats y cdn catalog allUsers
          (Wrapped.restrictSongsToYear y user) =
        Wrapped.wrappedStats y cdn catalog allUsers user) ∧
    (∀ (user : Wrapped.User) (albumMap : List Album)
        (allUsers : List Wrapped.User),
      Wrapped.calculateListeningPercentiles (Wrapped.eraseHistory user) albumMap
          (allUsers.map Wrapped.eraseHistory) =
        Wrapped.calculateListeningPercentiles user albumMap allUsers) := by
  constructor
  · intro y cdn catalog allUsers user
    obtain ⟨ss, sa⟩ := user
    have h : (ss.filter (fun s => Wrapped.hasEventInYear y s.listenHistory)).filter
        (fun s => Wrapped.hasEventInYear y s.listenHistory) =
        ss.filter (fun s => Wrapped.hasEventInYear y s.listenHistory) := by
      rw [List.filter_filter]
      simp
    simp only [Wrapped.restrictSongsToYear, Wrapped.wrappedStats]
    rw [h]
    rfl
  · intro user albumMap allUsers
    unfold Wrapped.calculateListeningPercentiles
    rw [show (Wrapped.eraseHistory user).listenedAlbums =
        user.listenedAlbums.map (fun a => { a with listenHistory := [] }) from rfl]
    rw [List.map_map]
    refine List.map_congr_left ?_
    intro a _
    show Wrapped.percentileFor albumMap (allUsers.map Wrapped.eraseHistory)
      a.albumId a.playCount = _
    unfold Wrapped.percentileFor
    rw [Wrapped.albumPlayCounts_eraseHistory]

end AudioApi
